import Mathlib

/-!
Verification of the propchain ml-service inference pipeline.

Shallow embedding of `src/ml-service/features.py` (FeatureEngineer) and
`src/ml-service/model.py` (PricePredictionModel).  Python dictionaries with
`get`-with-default access are modelled as structures of `Option` fields;
Python floats are modelled as real numbers; exceptions are modelled by
`Except Unit` (for external calls and the opaque statistical estimator) and
by `Option` results (for a call that may propagate an exception to the
caller).  The opaque trained scikit-learn estimator (scaler + random forest)
is an abstract function parameter `List ℝ → Except Unit ℝ`.
-/

noncomputable section

open Classical

namespace PropChain

/-- The feature dictionary built by `FeatureEngineer.create_features` and
consumed by `PricePredictionModel.predict`.  Each Python dict key is an
`Option` field; `none` models an absent key. -/
structure Features where
  area_sqft : Option ℝ := none
  latitude : Option ℝ := none
  longitude : Option ℝ := none
  land_type_encoded : Option ℝ := none
  road_width : Option ℝ := none
  electricity : Option ℝ := none
  water_supply : Option ℝ := none
  distance_to_city : Option ℝ := none
  distance_to_highway : Option ℝ := none
  distance_to_metro : Option ℝ := none
  distance_to_school : Option ℝ := none
  distance_to_hospital : Option ℝ := none
  avg_price_in_area : Option ℝ := none
  state : Option String := none
  district : Option String := none

/-- The five distance entries returned by `_calculate_distances` /
`_estimate_distances` (a plain dict of five numeric keys in the source). -/
structure DistFeatures where
  distance_to_city : ℝ
  distance_to_highway : ℝ
  distance_to_metro : ℝ
  distance_to_school : ℝ
  distance_to_hospital : ℝ

/-- Python truthiness of an optional float: absent (`None`) and `0` are
falsy, every other float is truthy. -/
def truthy (o : Option ℝ) : Prop :=
  match o with
  | none => False
  | some x => x ≠ 0

namespace FeatureEngineer

/-- `self.land_type_map` from features.py lines 12-17. -/
def land_type_map (s : String) : Option ℕ :=
  if s = "RESIDENTIAL" then some 1
  else if s = "COMMERCIAL" then some 2
  else if s = "AGRICULTURAL" then some 3
  else if s = "INDUSTRIAL" then some 4
  else none

/-- `self.city_centers` from features.py lines 20-28. -/
def city_centers (d : String) : Option (ℝ × ℝ) :=
  if d = "Ernakulam" then some (9.9312, 76.2673)
  else if d = "Thiruvananthapuram" then some (8.5241, 76.9366)
  else if d = "Kozhikode" then some (11.2588, 75.7804)
  else if d = "Bangalore" then some (12.9716, 77.5946)
  else if d = "Chennai" then some (13.0827, 80.2707)
  else if d = "Mumbai" then some (19.0760, 72.8777)
  else if d = "Delhi" then some (28.7041, 77.1025)
  else none

/-- `math.atan2 y x` (Python semantics; `atan2 0 0 = 0`). -/
def atan2 (y x : ℝ) : ℝ :=
  if 0 < x then Real.arctan (y / x)
  else if x < 0 then
    (if 0 ≤ y then Real.arctan (y / x) + Real.pi else Real.arctan (y / x) - Real.pi)
  else
    (if 0 < y then Real.pi / 2 else if y < 0 then -(Real.pi / 2) else 0)

/-- `math.radians`: degrees to radians. -/
def radians (x : ℝ) : ℝ := x * Real.pi / 180

/-- `FeatureEngineer._haversine_distance` (features.py lines 154-167). -/
def haversine_distance (lat1 lon1 lat2 lon2 : ℝ) : ℝ :=
  let R : ℝ := 6371
  let φ1 := radians lat1
  let l1 := radians lon1
  let φ2 := radians lat2
  let l2 := radians lon2
  let dlat := φ2 - φ1
  let dlon := l2 - l1
  let a := Real.sin (dlat / 2) ^ 2 + Real.cos φ1 * Real.cos φ2 * Real.sin (dlon / 2) ^ 2
  let c := 2 * atan2 (Real.sqrt a) (Real.sqrt (1 - a))
  R * c

/-- `FeatureEngineer._estimate_distances` (features.py lines 138-152):
fallback distances when the mapping service is unavailable or failed. -/
def estimate_distances (lat lng : ℝ) (district : String) : DistFeatures :=
  let city_center := (city_centers district).getD (lat, lng)
  { distance_to_city := haversine_distance lat lng city_center.1 city_center.2
    distance_to_highway := 5.0
    distance_to_metro := 10.0
    distance_to_school := 2.0
    distance_to_hospital := 3.0 }

/-- The external Google-Maps client: each operation either raises
(`Except.error`) or returns.  `distance_matrix` returns `none` when the
element status is not OK, otherwise the driving distance in metres;
`places_nearby` returns the location of the first result, or `none` when
there are no results. -/
structure Geocoder where
  distance_matrix : ℝ → ℝ → ℝ → ℝ → Except Unit (Option ℝ)
  places_nearby : ℝ → ℝ → String → Except Unit (Option (ℝ × ℝ))

/-- `FeatureEngineer._calculate_distances` (features.py lines 73-136).
Any exception raised by a mapping-service call is caught by the method's
own `try`/`except`, which discards partial results and returns
`_estimate_distances`. -/
def calculate_distances (g : Geocoder) (lat lng : ℝ) (district : String) :
    DistFeatures :=
  let city_center := (city_centers district).getD (lat, lng)
  match g.distance_matrix lat lng city_center.1 city_center.2 with
  | .error _ => estimate_distances lat lng district
  | .ok res =>
    let distance_to_city :=
      match res with
      | some distance_m => distance_m / 1000
      | none => haversine_distance lat lng city_center.1 city_center.2
    match g.places_nearby lat lng "school" with
    | .error _ => estimate_distances lat lng district
    | .ok sres =>
      let distance_to_school :=
        match sres with
        | some loc => haversine_distance lat lng loc.1 loc.2
        | none => 5.0
      match g.places_nearby lat lng "hospital" with
      | .error _ => estimate_distances lat lng district
      | .ok hres =>
        let distance_to_hospital :=
          match hres with
          | some loc => haversine_distance lat lng loc.1 loc.2
          | none => 3.0
        { distance_to_city := distance_to_city
          distance_to_highway := 5.0
          distance_to_metro := 10.0
          distance_to_school := distance_to_school
          distance_to_hospital := distance_to_hospital }

/-- `FeatureEngineer._get_avg_price_in_area` (features.py lines 169-187). -/
def get_avg_price_in_area (district state : String) : ℝ :=
  if state = "Kerala" then
    (if district = "Ernakulam" then 2800
     else if district = "Thiruvananthapuram" then 2500
     else if district = "Kozhikode" then 2200
     else 2000)
  else if state = "Karnataka" then
    (if district = "Bangalore" then 4200 else 2000)
  else if state = "Tamil Nadu" then
    (if district = "Chennai" then 3800 else 2000)
  else 2000

/-- `FeatureEngineer.create_features` (features.py lines 30-71).
`gmaps` is `none` when no API key was configured.  `road_width or 6.0`
follows Python truthiness: `None` and `0.0` both yield the default.
The outer `try`/`except` around `_calculate_distances` also falls back to
`_estimate_distances`, but `_calculate_distances` already catches every
exception its service calls can raise, so it is total here. -/
def create_features (gmaps : Option Geocoder) (area_sqft latitude longitude : ℝ)
    (district state land_type : String) (road_width : Option ℝ)
    (electricity water_supply : Bool) : Features :=
  let d :=
    match gmaps with
    | some g => calculate_distances g latitude longitude district
    | none => estimate_distances latitude longitude district
  { area_sqft := some area_sqft
    latitude := some latitude
    longitude := some longitude
    land_type_encoded := some ((land_type_map land_type).getD 1 : ℕ)
    road_width := some (match road_width with
      | none => 6.0
      | some w => if w = 0 then 6.0 else w)
    electricity := some (if electricity then 1 else 0)
    water_supply := some (if water_supply then 1 else 0)
    state := some state
    district := some district
    distance_to_city := some d.distance_to_city
    distance_to_highway := some d.distance_to_highway
    distance_to_metro := some d.distance_to_metro
    distance_to_school := some d.distance_to_school
    distance_to_hospital := some d.distance_to_hospital
    avg_price_in_area := some (get_avg_price_in_area district state) }

end FeatureEngineer

namespace Model

/-- The qualitative factor labels of a prediction result (a dict with
variable string keys in the source; absent keys are `none`). -/
structure Factors where
  location : Option String := none
  metro_access : Option String := none
  infrastructure : Option String := none
  note : Option String := none

/-- The result dict returned by `PricePredictionModel.predict`. -/
structure PredictResult where
  price : ℝ
  price_per_sqft : ℝ
  confidence : ℝ
  price_min : ℝ
  price_max : ℝ
  factors : Factors

/-- `self.feature_names` order (model.py lines 14-20), with dict lookup
`features.get(name, 0)` (model.py line 94). -/
def feature_vector_list (f : Features) : List ℝ :=
  [f.area_sqft.getD 0, f.latitude.getD 0, f.longitude.getD 0,
   f.distance_to_city.getD 0, f.distance_to_highway.getD 0,
   f.distance_to_metro.getD 0, f.distance_to_school.getD 0,
   f.distance_to_hospital.getD 0, f.road_width.getD 0,
   f.electricity.getD 0, f.water_supply.getD 0,
   f.avg_price_in_area.getD 0, f.land_type_encoded.getD 0]

/-- `PricePredictionModel._calculate_confidence` (model.py lines 161-171). -/
def calculate_confidence (f : Features) : ℝ :=
  min (0.7 + (if f.distance_to_city.isSome then 0.1 else 0)
          + (if f.avg_price_in_area.isSome then 0.15 else 0)) 0.95

/-- `PricePredictionModel._analyze_factors` (model.py lines 173-193). -/
def analyze_factors (f : Features) : Factors :=
  { location := some (if f.distance_to_city.getD 100 < 5 then "high_value_area"
      else if f.distance_to_city.getD 100 < 15 then "moderate_area"
      else "peripheral_area")
    metro_access := if f.distance_to_metro.getD 100 < 2 then some "excellent" else none
    infrastructure := if truthy f.electricity ∧ truthy f.water_supply then
      some "well_developed" else none
    note := none }

/-- The base-price table of `_heuristic_prediction` (model.py lines 126-130)
with the two-level `get`-with-default lookup of line 134. -/
def base_prices (state district : String) : ℝ :=
  if state = "Kerala" then
    (if district = "Ernakulam" then 3000
     else if district = "Thiruvananthapuram" then 2800
     else if district = "Kozhikode" then 2500
     else 2000)
  else if state = "Karnataka" then
    (if district = "Bangalore" then 4500
     else if district = "Mysore" then 2000
     else 2000)
  else if state = "Tamil Nadu" then
    (if district = "Chennai" then 4000
     else if district = "Coimbatore" then 2200
     else 2000)
  else 2000

/-- The base price the heuristic branch starts from (model.py lines
132-134): the `state`/`district` keys of the feature dict, defaulting to
`Kerala`/`Ernakulam` when absent, looked up in `base_prices`. -/
def heuristic_base (f : Features) : ℝ :=
  base_prices (f.state.getD "Kerala") (f.district.getD "Ernakulam")

/-- `PricePredictionModel._heuristic_prediction` (model.py lines 123-159).
Returns `none` when the method raises to its caller: the only statement
that can raise is `features['area_sqft']` (line 146, a `KeyError` when the
key is absent). -/
def heuristic_prediction (f : Features) : Option PredictResult :=
  match f.area_sqft with
  | none => none
  | some area =>
    let base0 := heuristic_base f
    let base1 := if f.distance_to_city.getD 100 < 5 then base0 * 1.3 else base0
    let base2 := if f.distance_to_metro.getD 100 < 2 then base1 * 1.2 else base1
    let base3 := if truthy f.electricity ∧ truthy f.water_supply then
      base2 * 1.1 else base2
    let predicted_price := base3 * area
    some { price := predicted_price
           price_per_sqft := base3
           confidence := 0.6
           price_min := predicted_price * 0.8
           price_max := predicted_price * 1.2
           factors := { location := some "moderate_impact"
                        metro_access := none
                        infrastructure := some (if truthy f.electricity then
                          "positive" else "needs_improvement")
                        note := some "Prediction based on market averages (model training in progress)" } }

/-- `PricePredictionModel.predict` (model.py lines 84-121).
`trained` models `hasattr(self.scaler, 'mean_')`; `stat_model` is the
opaque composite `self.model.predict(self.scaler.transform(...))[0]`, with
`Except.error` modelling any exception it raises.  The statistical branch
also raises — and hence falls back to the heuristic — when
`features['area_sqft']` is absent (`KeyError`) or zero
(`ZeroDivisionError` in `predicted_price / features['area_sqft']`);
an exception raised inside the fallback call itself propagates (`none`). -/
def predict (trained : Bool) (stat_model : List ℝ → Except Unit ℝ)
    (f : Features) : Option PredictResult :=
  if trained then
    match stat_model (feature_vector_list f) with
    | .error _ => heuristic_prediction f
    | .ok predicted_price =>
      match f.area_sqft with
      | none => heuristic_prediction f
      | some area =>
        if area = 0 then heuristic_prediction f
        else
          some { price := predicted_price
                 price_per_sqft := predicted_price / area
                 confidence := calculate_confidence f
                 price_min := predicted_price - predicted_price * 0.15
                 price_max := predicted_price + predicted_price * 0.15
                 factors := analyze_factors f }
  else heuristic_prediction f

end Model

/-- All thirteen numeric slots of the feature vector (the keys of
`PricePredictionModel.feature_names`) are present. -/
def all_numeric_slots_present (f : Features) : Prop :=
  f.area_sqft.isSome ∧ f.latitude.isSome ∧ f.longitude.isSome ∧
  f.land_type_encoded.isSome ∧ f.road_width.isSome ∧ f.electricity.isSome ∧
  f.water_supply.isSome ∧ f.distance_to_city.isSome ∧
  f.distance_to_highway.isSome ∧ f.distance_to_metro.isSome ∧
  f.distance_to_school.isSome ∧ f.distance_to_hospital.isSome ∧
  f.avg_price_in_area.isSome

/-- A concrete estimator stub that always returns 10. -/
def stat_ok10 : List ℝ → Except Unit ℝ := fun _ => Except.ok 10

/-- A concrete feature dict holding only the `area_sqft` key. -/
def f_area1 : Features := { area_sqft := some 1 }

/-- A concrete feature dict holding all thirteen numeric keys. -/
def f_full : Features :=
  { area_sqft := some 1, latitude := some 1, longitude := some 1,
    land_type_encoded := some 1, road_width := some 1, electricity := some 1,
    water_supply := some 1, distance_to_city := some 1,
    distance_to_highway := some 1, distance_to_metro := some 1,
    distance_to_school := some 1, distance_to_hospital := some 1,
    avg_price_in_area := some 1 }

/-- The heuristic result on `f_area1`: base 3000 (Kerala/Ernakulam default),
no proximity or infrastructure adjustment, area 1. -/
def r_heuristic_example : Model.PredictResult :=
  { price := 3000, price_per_sqft := 3000, confidence := 0.6,
    price_min := 2400, price_max := 3600,
    factors := { location := some "moderate_impact", metro_access := none,
                 infrastructure := some "needs_improvement",
                 note := some "Prediction based on market averages (model training in progress)" } }

/-- The statistical result on `f_area1` with raw prediction 10. -/
def r_stat_example : Model.PredictResult :=
  { price := 10, price_per_sqft := 10, confidence := 0.7,
    price_min := 8.5, price_max := 11.5,
    factors := { location := some "peripheral_area", metro_access := none,
                 infrastructure := none, note := none } }

/-- A mapping client whose every call raises. -/
def failing_geocoder : FeatureEngineer.Geocoder :=
  { distance_matrix := fun _ _ _ _ => Except.error ()
    places_nearby := fun _ _ _ => Except.error () }

open FeatureEngineer

@[simp] theorem truthy_none : ¬ truthy none := fun h => h

@[simp] theorem truthy_some (x : ℝ) : truthy (some x) ↔ x ≠ 0 := Iff.rfl

theorem atan2_zero_one : atan2 0 1 = 0 := by
  unfold atan2
  rw [if_pos one_pos]
  simp

theorem haversine_distance_self (lat lng : ℝ) :
    haversine_distance lat lng lat lng = 0 := by
  simp [haversine_distance, atan2_zero_one]

theorem haversine_distance_symm (lat1 lon1 lat2 lon2 : ℝ) :
    haversine_distance lat1 lon1 lat2 lon2 = haversine_distance lat2 lon2 lat1 lon1 := by
  have h : ∀ x y : ℝ, Real.sin ((x - y) / 2) ^ 2 = Real.sin ((y - x) / 2) ^ 2 := by
    intro x y
    rw [show (x - y) / 2 = -((y - x) / 2) by ring, Real.sin_neg]
    ring
  simp only [haversine_distance]
  rw [h (radians lat2) (radians lat1), h (radians lon2) (radians lon1),
      mul_comm (Real.cos (radians lat1)) (Real.cos (radians lat2))]

theorem chennai_center : city_centers "Chennai" = some (13.0827, 80.2707) := by
  simp [city_centers]

theorem bp_tn : Model.base_prices "Tamil Nadu" "Chennai" = 4000 := by
  simp [Model.base_prices]

theorem bp_kerala : Model.base_prices "Kerala" "Ernakulam" = 3000 := by
  simp [Model.base_prices]

/-- Full evaluation of `create_features` on the Chennai scenario input. -/
theorem cf_chennai : create_features none 1000 13.0827 80.2707 "Chennai" "Tamil Nadu"
    "RESIDENTIAL" none true true =
    { area_sqft := some 1000, latitude := some 13.0827, longitude := some 80.2707,
      land_type_encoded := some 1, road_width := some 6.0,
      electricity := some 1, water_supply := some 1,
      distance_to_city := some 0, distance_to_highway := some 5.0,
      distance_to_metro := some 10.0, distance_to_school := some 2.0,
      distance_to_hospital := some 3.0, avg_price_in_area := some 3800,
      state := some "Tamil Nadu", district := some "Chennai" } := by
  simp [create_features, estimate_distances, chennai_center,
    haversine_distance_self, land_type_map, get_avg_price_in_area]

/-- The heuristic branch: result fields in terms of the area value, when the
`area_sqft` key is present. -/
theorem heuristic_spec (f : Features) (a : ℝ) (r : Model.PredictResult)
    (ha : f.area_sqft = some a) (h : Model.heuristic_prediction f = some r) :
    r.price = r.price_per_sqft * a ∧ r.confidence = 0.6 ∧
    r.price_min = r.price * 0.8 ∧ r.price_max = r.price * 1.2 := by
  simp only [Model.heuristic_prediction, ha, Option.some.injEq] at h
  subst h
  exact ⟨rfl, rfl, rfl, rfl⟩

theorem heuristic_isSome (f : Features) (a : ℝ) (ha : f.area_sqft = some a) :
    (Model.heuristic_prediction f).isSome := by
  simp [Model.heuristic_prediction, ha]

theorem heuristic_f_area1 :
    Model.heuristic_prediction f_area1 = some r_heuristic_example := by
  norm_num [Model.heuristic_prediction, Model.heuristic_base, bp_kerala,
    f_area1, r_heuristic_example]

theorem predict_false_f_area1 :
    Model.predict false stat_ok10 f_area1 = some r_heuristic_example := by
  simpa [Model.predict] using heuristic_f_area1

theorem predict_true_f_area1 :
    Model.predict true stat_ok10 f_area1 = some r_stat_example := by
  norm_num [Model.predict, stat_ok10, f_area1, r_stat_example,
    Model.calculate_confidence, Model.analyze_factors]

/-- Claim C1: for every feature vector containing all thirteen numeric
slots, `predict` always returns a complete result and never propagates an
exception: when the scaling transform is unfitted, when the estimator
raises, or when the division by the area raises, the heuristic branch
produces the result instead. -/
theorem C1_predict_never_raises (trained : Bool)
    (sm : List ℝ → Except Unit ℝ) (f : Features)
    (h : all_numeric_slots_present f) :
    (Model.predict trained sm f).isSome ∧
    (trained = false → Model.predict trained sm f = Model.heuristic_prediction f) ∧
    (∀ e, sm (Model.feature_vector_list f) = Except.error e →
      Model.predict trained sm f = Model.heuristic_prediction f) ∧
    (f.area_sqft = some 0 →
      Model.predict trained sm f = Model.heuristic_prediction f) := by
  obtain ⟨a, ha⟩ := Option.isSome_iff_exists.mp h.1
  have hh := heuristic_isSome f a ha
  refine ⟨?_, ?_, ?_, ?_⟩
  · cases trained with
    | false => simpa [Model.predict] using hh
    | true =>
      simp only [Model.predict, if_true]
      cases hsm : sm (Model.feature_vector_list f) with
      | error e => simpa using hh
      | ok p =>
        rw [ha]
        by_cases hz : a = 0
        · simpa [hz] using hh
        · simp [hz]
  · intro ht; subst ht; simp [Model.predict]
  · intro e he
    cases trained with
    | false => simp [Model.predict]
    | true => simp [Model.predict, he]
  · intro h0
    cases trained with
    | false => simp [Model.predict]
    | true =>
      simp only [Model.predict, if_true]
      cases hsm : sm (Model.feature_vector_list f) with
      | error e => simp
      | ok p => simp [h0]

theorem C1_witness :
    (Model.predict false stat_ok10 f_full).isSome ∧
    Model.predict false stat_ok10 f_full = Model.heuristic_prediction f_full := by
  have h := C1_predict_never_raises false stat_ok10 f_full
    (by simp [all_numeric_slots_present, f_full])
  exact ⟨h.1, h.2.1 rfl⟩

/-- Claim C2: the Chennai scenario — district "Chennai", state "Tamil Nadu",
RESIDENTIAL, area 1000, coordinates at the Chennai city-center entry, no
geocoding capability, utility flags at their defaults (true), untrained
estimator — takes the heuristic branch and yields price-per-unit-area
4000 × 1.3 × 1.1 = 5720, point price 5,720,000, confidence 0.60. -/
theorem C2_chennai_scenario (sm : List ℝ → Except Unit ℝ) :
    Model.predict false sm
      (create_features none 1000 13.0827 80.2707 "Chennai" "Tamil Nadu"
        "RESIDENTIAL" none true true) =
      Model.heuristic_prediction
        (create_features none 1000 13.0827 80.2707 "Chennai" "Tamil Nadu"
          "RESIDENTIAL" none true true) ∧
    ∃ r, Model.predict false sm
      (create_features none 1000 13.0827 80.2707 "Chennai" "Tamil Nadu"
        "RESIDENTIAL" none true true) = some r ∧
      r.price_per_sqft = 4000 * 1.3 * 1.1 ∧ r.price_per_sqft = 5720 ∧
      r.price = 5720000 ∧ r.confidence = 0.6 := by
  constructor
  · simp [Model.predict]
  · rw [cf_chennai]
    norm_num [Model.predict, Model.heuristic_prediction, Model.heuristic_base,
      bp_tn]

/-- Claim C3: for every feature vector, an untrained estimator returns
confidence exactly 0.60 and the interval [0.8 × price, 1.2 × price]. -/
theorem C3_untrained_confidence_interval (sm : List ℝ → Except Unit ℝ)
    (f : Features) (r : Model.PredictResult)
    (h : Model.predict false sm f = some r) :
    r.confidence = 0.6 ∧ r.price_min = 0.8 * r.price ∧
    r.price_max = 1.2 * r.price := by
  simp only [Model.predict, Bool.false_eq_true, if_false] at h
  cases hf : f.area_sqft with
  | none => rw [Model.heuristic_prediction, hf] at h; exact absurd h (by simp)
  | some a =>
    obtain ⟨_, hc, hmin, hmax⟩ := heuristic_spec f a r hf h
    exact ⟨hc, by rw [hmin]; ring, by rw [hmax]; ring⟩

theorem C3_witness :
    r_heuristic_example.confidence = 0.6 ∧
    r_heuristic_example.price_min = 0.8 * r_heuristic_example.price ∧
    r_heuristic_example.price_max = 1.2 * r_heuristic_example.price :=
  C3_untrained_confidence_interval stat_ok10 f_area1 r_heuristic_example
    predict_false_f_area1

/-- Claim C4: when the estimator is trained and the statistical branch
completes, confidence is 0.70, plus 0.10 when the city-distance key is
present, plus 0.15 when the area-average-price key is present, clamped at
0.95 — hence within [0.70, 0.95] — and the interval is exactly
[0.85 × price, 1.15 × price]. -/
theorem C4_trained_confidence_interval (sm : List ℝ → Except Unit ℝ)
    (f : Features) (p a : ℝ) (r : Model.PredictResult)
    (hsm : sm (Model.feature_vector_list f) = Except.ok p)
    (ha : f.area_sqft = some a) (haz : a ≠ 0)
    (h : Model.predict true sm f = some r) :
    r.confidence = min (0.7 + (if f.distance_to_city.isSome then 0.1 else 0)
        + (if f.avg_price_in_area.isSome then 0.15 else 0)) 0.95 ∧
    0.7 ≤ r.confidence ∧ r.confidence ≤ 0.95 ∧
    r.price_min = 0.85 * r.price ∧ r.price_max = 1.15 * r.price := by
  simp only [Model.predict, if_true, hsm, ha, if_neg haz, Option.some.injEq] at h
  subst h
  refine ⟨rfl, ?_, min_le_right _ _, by ring, by ring⟩
  refine le_min ?_ (by norm_num)
  have h1 : (0:ℝ) ≤ (if f.distance_to_city.isSome then 0.1 else 0) := by
    split <;> norm_num
  have h2 : (0:ℝ) ≤ (if f.avg_price_in_area.isSome then 0.15 else 0) := by
    split <;> norm_num
  linarith

theorem C4_witness :
    r_stat_example.confidence
      = min (0.7 + (if f_area1.distance_to_city.isSome then 0.1 else 0)
        + (if f_area1.avg_price_in_area.isSome then 0.15 else 0)) 0.95 ∧
    0.7 ≤ r_stat_example.confidence ∧ r_stat_example.confidence ≤ 0.95 ∧
    r_stat_example.price_min = 0.85 * r_stat_example.price ∧
    r_stat_example.price_max = 1.15 * r_stat_example.price :=
  C4_trained_confidence_interval stat_ok10 f_area1 10 1 r_stat_example
    rfl rfl (by norm_num) predict_true_f_area1

/-- Claim C5: whenever the area slot is strictly positive, the returned
result satisfies price_per_sqft × area = price, in both branches (exact
equality over the reals). -/
theorem C5_price_per_sqft_consistent (trained : Bool)
    (sm : List ℝ → Except Unit ℝ) (f : Features) (a : ℝ)
    (r : Model.PredictResult) (ha : f.area_sqft = some a) (hpos : 0 < a)
    (h : Model.predict trained sm f = some r) :
    r.price_per_sqft * a = r.price := by
  have hheu : Model.heuristic_prediction f = some r →
      r.price_per_sqft * a = r.price := fun hh =>
    ((heuristic_spec f a r ha hh).1).symm
  cases trained with
  | false => exact hheu (by simpa [Model.predict] using h)
  | true =>
    simp only [Model.predict, if_true] at h
    cases hsm : sm (Model.feature_vector_list f) with
    | error e => rw [hsm] at h; exact hheu h
    | ok p =>
      simp only [hsm, ha] at h
      rcases eq_or_ne a 0 with hz | hz
      · exact absurd hz (ne_of_gt hpos)
      · rw [if_neg hz] at h
        simp only [Option.some.injEq] at h
        subst h
        exact div_mul_cancel₀ p hz

theorem C5_witness :
    r_heuristic_example.price_per_sqft * 1 = r_heuristic_example.price :=
  C5_price_per_sqft_consistent false stat_ok10 f_area1 1 r_heuristic_example
    rfl (by norm_num) predict_false_f_area1

/-- Claim C6: with a geocoding capability whose every call fails,
`create_features` returns exactly the feature vector of the
no-capability path on the same input. -/
theorem C6_failing_geocoder_is_fallback (g : Geocoder)
    (hdm : ∀ a b c d, g.distance_matrix a b c d = Except.error ())
    (_hpn : ∀ a b t, g.places_nearby a b t = Except.error ())
    (area lat lng : ℝ) (district state lt : String) (rwid : Option ℝ)
    (e w : Bool) :
    create_features (some g) area lat lng district state lt rwid e w =
    create_features none area lat lng district state lt rwid e w := by
  simp [create_features, calculate_distances, hdm]

theorem C6_witness :
    create_features (some failing_geocoder) 1 2 3 "d" "s" "RESIDENTIAL"
      none true true =
    create_features none 1 2 3 "d" "s" "RESIDENTIAL" none true true :=
  C6_failing_geocoder_is_fallback failing_geocoder
    (fun _ _ _ _ => rfl) (fun _ _ _ => rfl) 1 2 3 "d" "s" "RESIDENTIAL"
    none true true

/-- Claim C7: for every input, `create_features` returns a feature vector
with all thirteen numeric slots present (no absent keys). -/
theorem C7_all_slots_present (gmaps : Option Geocoder) (area lat lng : ℝ)
    (district state lt : String) (rwid : Option ℝ) (e w : Bool) :
    all_numeric_slots_present
      (create_features gmaps area lat lng district state lt rwid e w) := by
  simp [create_features, all_numeric_slots_present]

/-- Claim C8 counterexample: supplying road width 0 yields slot 6.0, not
the supplied value — Python `road_width or 6.0` treats 0.0 as falsy. -/
theorem C8_counterexample :
    (create_features none 100 0 0 "X" "Y" "RESIDENTIAL" (some 0) true
      true).road_width = some 6 ∧ (6:ℝ) ≠ 0 := by
  constructor
  · norm_num [create_features]
  · norm_num

/-- Claim C8 (amended): land-type code is 1/2/3/4 for
RESIDENTIAL/COMMERCIAL/AGRICULTURAL/INDUSTRIAL and 1 for any other string;
the road-width slot equals the supplied road width when one is supplied
and nonzero, and 6.0 when it is absent or supplied as zero; the
electricity and water slots are 1 for true and 0 for false. -/
theorem C8_direct_features (gmaps : Option Geocoder) (area lat lng : ℝ)
    (district state lt : String) (rwid : Option ℝ) (e w : Bool) :
    ((create_features gmaps area lat lng district state "RESIDENTIAL" rwid e w).land_type_encoded = some 1) ∧
    ((create_features gmaps area lat lng district state "COMMERCIAL" rwid e w).land_type_encoded = some 2) ∧
    ((create_features gmaps area lat lng district state "AGRICULTURAL" rwid e w).land_type_encoded = some 3) ∧
    ((create_features gmaps area lat lng district state "INDUSTRIAL" rwid e w).land_type_encoded = some 4) ∧
    (lt ≠ "RESIDENTIAL" → lt ≠ "COMMERCIAL" → lt ≠ "AGRICULTURAL" → lt ≠ "INDUSTRIAL" →
      (create_features gmaps area lat lng district state lt rwid e w).land_type_encoded = some 1) ∧
    ((create_features gmaps area lat lng district state lt none e w).road_width = some 6) ∧
    (∀ x : ℝ, x ≠ 0 →
      (create_features gmaps area lat lng district state lt (some x) e w).road_width = some x) ∧
    ((create_features gmaps area lat lng district state lt (some 0) e w).road_width = some 6) ∧
    ((create_features gmaps area lat lng district state lt rwid e w).electricity
      = some (if e then 1 else 0)) ∧
    ((create_features gmaps area lat lng district state lt rwid e w).water_supply
      = some (if w then 1 else 0)) := by
  refine ⟨?_, ?_, ?_, ?_, ?_, ?_, ?_, ?_, ?_, ?_⟩
  · simp [create_features, land_type_map]
  · simp [create_features, land_type_map]
  · simp [create_features, land_type_map]
  · simp [create_features, land_type_map]
  · intro h1 h2 h3 h4
    simp [create_features, land_type_map, h1, h2, h3, h4]
  · norm_num [create_features]
  · intro x hx
    simp [create_features, hx]
  · norm_num [create_features]
  · simp [create_features]
  · simp [create_features]

theorem C8_witness :
    (create_features none 1 2 3 "d" "s" "FOREST" none true
      false).land_type_encoded = some 1 ∧
    (create_features none 1 2 3 "d" "s" "FOREST" (some 3) true
      false).road_width = some 3 := by
  obtain ⟨_, _, _, _, h5, _, h7, _, _, _⟩ :=
    C8_direct_features none 1 2 3 "d" "s" "FOREST" none true false
  exact ⟨h5 (by decide) (by decide) (by decide) (by decide),
    h7 3 (by norm_num)⟩

/-- Claim C9: the haversine distance is symmetric and zero on equal points;
hence in the fallback path `distance_to_city` is 0 at the city-center
coordinates of a recognized district, and for an unknown district (the
point is its own city center). -/
theorem C9_haversine_properties :
    (∀ lat1 lon1 lat2 lon2 : ℝ,
      haversine_distance lat1 lon1 lat2 lon2 = haversine_distance lat2 lon2 lat1 lon1) ∧
    (∀ lat lng : ℝ, haversine_distance lat lng lat lng = 0) ∧
    (∀ (lat lng : ℝ) (district : String) (cc : ℝ × ℝ),
      city_centers district = some cc → lat = cc.1 → lng = cc.2 →
      (estimate_distances lat lng district).distance_to_city = 0) ∧
    (∀ (lat lng : ℝ) (district : String), city_centers district = none →
      (estimate_distances lat lng district).distance_to_city = 0) := by
  refine ⟨haversine_distance_symm, haversine_distance_self, ?_, ?_⟩
  · intro lat lng district cc hcc h1 h2
    subst h1; subst h2
    simp [estimate_distances, hcc, haversine_distance_self]
  · intro lat lng district hcc
    simp [estimate_distances, hcc, haversine_distance_self]

theorem C9_witness :
    (estimate_distances 13.0827 80.2707 "Chennai").distance_to_city = 0 ∧
    (estimate_distances 1 2 "Nowhere").distance_to_city = 0 :=
  ⟨C9_haversine_properties.2.2.1 13.0827 80.2707 "Chennai" (13.0827, 80.2707)
      chennai_center rfl rfl,
   C9_haversine_properties.2.2.2 1 2 "Nowhere" (by simp [city_centers])⟩

/-- Claim C10: the feature vector carries the raw string keys `state` and
`district`; the heuristic branch reads its base price from them, and when
they are absent substitutes "Kerala"/"Ernakulam", giving base
price-per-unit-area 3000 rather than the unmapped default 2000. -/
theorem C10_state_district_keys (gmaps : Option Geocoder) (area lat lng : ℝ)
    (district state lt : String) (rwid : Option ℝ) (e w : Bool)
    (f : Features) (a : ℝ) (r : Model.PredictResult) :
    ((create_features gmaps area lat lng district state lt rwid e w).state = some state ∧
     (create_features gmaps area lat lng district state lt rwid e w).district = some district) ∧
    (f.state = none → f.district = none →
      Model.heuristic_base f = 3000 ∧ (3000:ℝ) ≠ 2000) ∧
    (f.state = none → f.district = none → f.distance_to_city = none →
     f.distance_to_metro = none → f.electricity = none → f.area_sqft = some a →
     Model.heuristic_prediction f = some r → r.price_per_sqft = 3000) := by
  refine ⟨⟨by simp [create_features], by simp [create_features]⟩, ?_, ?_⟩
  · intro hs hd
    refine ⟨?_, by norm_num⟩
    simp [Model.heuristic_base, hs, hd, bp_kerala]
  · intro hs hd hc hm he ha h
    simp only [Model.heuristic_prediction, ha, Option.some.injEq] at h
    rw [hc, hm, he] at h
    norm_num [Model.heuristic_base, hs, hd, bp_kerala] at h
    subst h
    norm_num

theorem C10_witness :
    (create_features none 1 2 3 "Chennai" "Tamil Nadu" "RESIDENTIAL" none
      true true).state = some "Tamil Nadu" ∧
    Model.heuristic_base f_area1 = 3000 ∧
    r_heuristic_example.price_per_sqft = 3000 := by
  obtain ⟨⟨h1, _⟩, h2, h3⟩ := C10_state_district_keys none 1 2 3 "Chennai"
    "Tamil Nadu" "RESIDENTIAL" none true true f_area1 1 r_heuristic_example
  exact ⟨h1, (h2 rfl rfl).1,
    h3 rfl rfl rfl rfl rfl rfl heuristic_f_area1⟩

end PropChain

end
